import Mathlib

/-!
Verification development for the HTTP-to-MCP wrapper (`index.js`).

The wrapper keeps two process-wide mutable variables, `mcpInitialized` and
`sessionId`, acquires an upstream session via an `initialize` JSON-RPC
handshake (`initializeMCPClient`), bridges logical calls to the upstream RPC
endpoint (`callMCPServer`), and exposes Express routes that each map one HTTP
request to one bridge call.

The embedding below is state-passing: the two globals form `WrapperState`;
the nondeterministic environment of one bridge call (the axios outcomes,
`Date.now()` readings and the `Math.random()` token) is a `CallEnv` record;
each function returns its new state together with the list of JSON-RPC
request envelopes it sent upstream.
-/

namespace Wrapper

/-- JSON values, as the JS objects the wrapper builds and forwards.
Objects are ordered field lists, as JS property order. -/
inductive Json where
  | null : Json
  | bool (b : Bool) : Json
  | num (n : Int) : Json
  | str (s : String) : Json
  | arr (elems : List Json) : Json
  | obj (fields : List (String × Json)) : Json

/-- The two module-level globals: `let mcpInitialized = false; let sessionId = null;`. -/
structure WrapperState where
  mcpInitialized : Bool
  sessionId : Option String
deriving DecidableEq

/-- State at process start (`index.js` lines 14-15). -/
def initialState : WrapperState := { mcpInitialized := false, sessionId := none }

/-- JS truthiness of the `sessionId` variable: `null`/`undefined` and `""` are falsy. -/
def jsTruthy : Option String → Bool
  | none => false
  | some s => !(s == "")

/-- JS `a || b` on nullable strings: `a` if truthy, otherwise `b`. -/
def jsOr (a b : Option String) : Option String :=
  if jsTruthy a then a else b

/-- Header lookup `response.headers[name]` (axios lower-cases header names). -/
def getHeader (headers : List (String × String)) (name : String) : Option String :=
  (headers.find? (fun p => p.1 == name)).map (fun p => p.2)

/-- A response body as axios delivers it: either already-parsed JSON or raw text
(string-typed `response.data` versus parsed object). -/
inductive BodyData where
  | str (s : String)
  | json (j : Json)

/-- Resolved axios response for the handshake POST. -/
structure InitResponse where
  status : Nat
  headers : List (String × String)
  data : BodyData

/-- Resolved axios response for a bridge call POST. -/
structure CallResponse where
  status : Nat
  data : BodyData

/-- Error axios rejects with: optional HTTP status of `error.response`, and `error.message`. -/
structure AxiosError where
  status : Option Nat
  message : String

/-- Error axios raises when the upstream answers a non-2xx status. Modelled
from the documented behavior of axios: the message is
"Request failed with status code N". External-library behavior, not repo code. -/
def httpStatusError (status : Nat) : AxiosError :=
  { status := some status, message := "Request failed with status code " ++ toString status }

/-- Characters admitted by the capture group `[a-f0-9-]` under the `i` flag. -/
def isSessIdChar (c : Char) : Bool :=
  (('a' ≤ c) && (c ≤ 'f')) || (('A' ≤ c) && (c ≤ 'F')) ||
  (('0' ≤ c) && (c ≤ '9')) || (c == '-')

/-- Case-insensitive match of a (lower-case) pattern against the head of `cs`;
returns the remaining characters on success. -/
def ciMatchHead : List Char → List Char → Option (List Char)
  | [], cs => some cs
  | _ :: _, [] => none
  | p :: ps, c :: cs => if c.toLower == p then ciMatchHead ps cs else none

/-- One attempt of the regex `sessionId[=:]([a-f0-9-]+)` (flag `i`) anchored at
the current position: the literal token, one of `=`/`:`, then a maximal
non-empty run of capture characters. -/
def sessMatchAt (cs : List Char) : Option (List Char) :=
  match ciMatchHead "sessionid".data cs with
  | none => none
  | some rest =>
    match rest with
    | [] => none
    | c :: rest2 =>
      if c == '=' || c == ':' then
        let cap := rest2.takeWhile isSessIdChar
        if cap.isEmpty then none else some cap
      else none

/-- Left-to-right scan for the first regex match, as `String.prototype.match`. -/
def sessScan : List Char → Option (List Char)
  | [] => none
  | c :: rest =>
    match sessMatchAt (c :: rest) with
    | some cap => some cap
    | none => sessScan rest

/-- Body pattern-match `initResponse.data.match(/sessionId[=:]([a-f0-9-]+)/i)`,
returning capture group 1 (`index.js` line 56). -/
def sessionIdMatch (s : String) : Option String :=
  (sessScan s.data).map (fun cs => String.mk cs)

/-- Locally synthesized fallback identifier (`index.js` line 65):
the template is session underscore `Date.now()` underscore random token,
where `rand` stands for `Math.random().toString(36).substring(2, 15)`. -/
def fallbackSessionId (now : Nat) (rand : String) : String :=
  "session_" ++ toString now ++ "_" ++ rand

/-- One JSON-RPC request envelope POSTed to the upstream `/mcp` endpoint,
together with the session header it carries (if any). -/
structure RpcRequest where
  jsonrpc : String
  id : Nat
  method : String
  params : Json
  sessionHeader : Option String

/-- Params of the handshake envelope (`index.js` lines 28-37). -/
def initParams : Json :=
  Json.obj [("protocolVersion", Json.str "2024-11-05"),
            ("capabilities", Json.obj [("tools", Json.obj [])]),
            ("clientInfo", Json.obj [("name", Json.str "n8n-wrapper"),
                                     ("version", Json.str "1.0.0")])]

/-- The handshake envelope (`index.js` lines 24-43): constant `id: 1`, no session header. -/
def initRequest : RpcRequest :=
  { jsonrpc := "2.0", id := 1, method := "initialize", params := initParams,
    sessionHeader := none }

/-- Session-identifier extraction of the handshake success path
(`index.js` lines 50-61): the two headers under JS `||`, then — when the
intermediate value is falsy and the body is a string — the body regex. -/
def extractSessionId (resp : InitResponse) : Option String :=
  let sid := jsOr (getHeader resp.headers "mcp-session-id")
                  (getHeader resp.headers "x-session-id")
  if !(jsTruthy sid) then
    match resp.data with
    | BodyData.str s =>
      match sessionIdMatch s with
      | some m => some m
      | none => sid
    | BodyData.json _ => sid
  else sid

/-- Result of one `initializeMCPClient()` invocation: the returned boolean, the
state of the two globals afterwards, and the envelopes sent upstream. -/
structure InitResult where
  ok : Bool
  state : WrapperState
  requests : List RpcRequest

/-- Session acquisition `initializeMCPClient` (`index.js` lines 18-89). Fast path when both globals
are truthy; otherwise POST the handshake: if axios throws, the catch returns
`false` with the globals untouched; on success extract or synthesize a session
identifier, set both globals and return `true`. `outcome` is the axios result,
`now`/`rand` the `Date.now()` and `Math.random()` readings of the fallback. -/
def initializeMCPClient (st : WrapperState) (outcome : Except AxiosError InitResponse)
    (now : Nat) (rand : String) : InitResult :=
  if st.mcpInitialized && jsTruthy st.sessionId then
    { ok := true, state := st, requests := [] }
  else
    match outcome with
    | Except.error _ =>
      { ok := false, state := st, requests := [initRequest] }
    | Except.ok resp =>
      let sid := extractSessionId resp
      let sid := if jsTruthy sid then sid else some (fallbackSessionId now rand)
      { ok := true, state := { mcpInitialized := true, sessionId := sid },
        requests := [initRequest] }

/-- Environment of one `callMCPServer()` invocation: the axios outcome of the
handshake (if one is attempted), the fallback-generation readings, the
`Date.now()` reading used as the envelope id, and the axios outcome of the
call POST itself. -/
structure CallEnv where
  initOutcome : Except AxiosError InitResponse
  initNow : Nat
  initRand : String
  callNow : Nat
  callOutcome : Except AxiosError CallResponse

/-- Result of one `callMCPServer()` invocation: `response.data` or the thrown
thrown error message, the state of the globals afterwards, and the envelopes sent. -/
structure CallResult where
  result : Except String BodyData
  state : WrapperState
  requests : List RpcRequest

/-- The call envelope (`index.js` lines 108-119): `id: Date.now()`, the given
method and params, and the cached `sessionId` as the `mcp-session-id` header. -/
def mkCallRequest (now : Nat) (method : String) (params : Json)
    (sid : Option String) : RpcRequest :=
  { jsonrpc := "2.0", id := now, method := method, params := params,
    sessionHeader := sid }

/-- The `try` block of `callMCPServer` (`index.js` lines 105-138): POST the
envelope; on success return `response.data` with the globals untouched; on
failure reset both globals and rethrow the error. `prev` carries envelopes
already sent by the same invocation (the handshake, when one happened). -/
def sendCall (st : WrapperState) (prev : List RpcRequest) (method : String)
    (params : Json) (env : CallEnv) : CallResult :=
  let req := mkCallRequest env.callNow method params st.sessionId
  match env.callOutcome with
  | Except.ok resp =>
    { result := Except.ok resp.data, state := st, requests := prev ++ [req] }
  | Except.error e =>
    { result := Except.error e.message,
      state := { mcpInitialized := false, sessionId := none },
      requests := prev ++ [req] }

/-- Bridge call `callMCPServer` (`index.js` lines 92-139): when either global is falsy run
`initializeMCPClient` first and throw "Failed to initialize MCP client" if it
returns `false`; then POST the call envelope. -/
def callMCPServer (st : WrapperState) (method : String) (params : Json)
    (env : CallEnv) : CallResult :=
  if !st.mcpInitialized || !(jsTruthy st.sessionId) then
    let ir := initializeMCPClient st env.initOutcome env.initNow env.initRand
    if ir.ok then
      sendCall ir.state ir.requests method params env
    else
      { result := Except.error "Failed to initialize MCP client",
        state := ir.state, requests := ir.requests }
  else
    sendCall st [] method params env

/-- Body of an HTTP response the route handlers produce: `res.json(result)` on
success, `res.status(500).json` of an object with an error field on failure. -/
inductive ReplyBody where
  | payload (d : BodyData)
  | errObj (message : String)

/-- HTTP response of a route handler. -/
structure HttpReply where
  status : Nat
  body : ReplyBody

/-- Result of one route invocation: the HTTP reply, the state of the globals
afterwards, and the envelopes sent upstream. -/
structure RouteOutcome where
  reply : HttpReply
  state : WrapperState
  requests : List RpcRequest

/-- The shared route-handler shape (for example `index.js` lines 147-154):
`try` the bridge call and reply 200 with its data, `catch` and reply 500 with
the error message. -/
def runRoute (st : WrapperState) (method : String) (params : Json)
    (env : CallEnv) : RouteOutcome :=
  let r := callMCPServer st method params env
  match r.result with
  | Except.ok d =>
    { reply := { status := 200, body := ReplyBody.payload d },
      state := r.state, requests := r.requests }
  | Except.error m =>
    { reply := { status := 500, body := ReplyBody.errObj m },
      state := r.state, requests := r.requests }

/-- Route `GET /tools` (`index.js` lines 147-154): the bridge call with method
`tools/list`, whose `params` default is the empty object. -/
def toolsRoute (st : WrapperState) (env : CallEnv) : RouteOutcome :=
  runRoute st "tools/list" (Json.obj []) env

/-- Route `POST /task` (`index.js` lines 170-180): `tools/call` with name
`create_task` and the request body as arguments. -/
def createTaskRoute (st : WrapperState) (body : Json) (env : CallEnv) : RouteOutcome :=
  runRoute st "tools/call"
    (Json.obj [("name", Json.str "create_task"), ("arguments", body)]) env

/-- Route `POST /call/:toolName` (`index.js` lines 266-276): generic dispatch,
`tools/call` with the path parameter as name and the request body as arguments. -/
def callToolRoute (st : WrapperState) (toolName : String) (body : Json)
    (env : CallEnv) : RouteOutcome :=
  runRoute st "tools/call"
    (Json.obj [("name", Json.str toolName), ("arguments", body)]) env

/-- JS property assignment `acc[k] = v` on an object with unique keys:
overwrite the binding in place, or append a new one. -/
def objInsert : List (String × Json) → String → Json → List (String × Json)
  | [], k, v => [(k, v)]
  | p :: rest, k, v => if p.1 == k then (k, v) :: rest else p :: objInsert rest k v

/-- JS object spread `{ ...base-already-built, ...src }`: assign every own
property of `src` in order onto the accumulated object. -/
def spreadInto (base : List (String × Json)) (src : List (String × Json)) :
    List (String × Json) :=
  src.foldl (fun acc p => objInsert acc p.1 p.2) base

/-- Arguments object of the update route (`index.js` line 200):
the object literal spreading the request body after the path parameter. -/
def updateTaskArgs (taskId : String) (body : List (String × Json)) : Json :=
  Json.obj (spreadInto [("taskId", Json.str taskId)] body)

/-- Route `PUT /task/:taskId` (`index.js` lines 196-206): `tools/call` with name
`update_task` and the spread-built arguments object. -/
def updateTaskRoute (st : WrapperState) (taskId : String)
    (body : List (String × Json)) (env : CallEnv) : RouteOutcome :=
  runRoute st "tools/call"
    (Json.obj [("name", Json.str "update_task"),
               ("arguments", updateTaskArgs taskId body)]) env

/-- Property read `o[k]` on a JS object (first binding; objects built by the
wrapper have unique keys). -/
def jsonLookup (fields : List (String × Json)) (k : String) : Option Json :=
  (fields.find? (fun p => p.1 == k)).map (fun p => p.2)

/-- Last binding of `k` in a raw field list — the value JS keeps when the same
key is assigned repeatedly (later assignments win). -/
def jsonLookupLast : List (String × Json) → String → Option Json
  | [], _ => none
  | p :: rest, k =>
    match jsonLookupLast rest k with
    | some v => some v
    | none => if p.1 == k then some p.2 else none

/-- Head-anchored occurrence test: does `pat` start at the head of the list? -/
def isPreOf : List Char → List Char → Bool
  | [], _ => true
  | _ :: _, [] => false
  | a :: ps, b :: hs => (a == b) && isPreOf ps hs

/-- Contiguous-substring occurrence of `pat` in `hay`. -/
def containsSub (pat : List Char) : List Char → Bool
  | [] => pat.isEmpty
  | c :: rest => isPreOf pat (c :: rest) || containsSub pat rest

/-- The SSE-framing detector of the spec: the body contains the literal marker
`event: message` (`index.js` line 73 tests the same marker). -/
def hasEventMarker (s : String) : Bool :=
  containsSub "event: message".data s.data

/-- The session-state invariant: whenever `mcpInitialized` is true, `sessionId`
is a non-null, non-empty string. -/
def stateInvB (st : WrapperState) : Bool :=
  !st.mcpInitialized || jsTruthy st.sessionId

/-- First truthy value of a candidate list (first-success-wins). -/
def firstTruthy : List (Option String) → Option String
  | [] => none
  | o :: rest => if jsTruthy o then o else firstTruthy rest

/-- Regex candidate over the body: only string bodies are pattern-matched. -/
def bodySessionMatch : BodyData → Option String
  | BodyData.str s => sessionIdMatch s
  | BodyData.json _ => none

/-- Claim-side selector, written from the words of the spec: first-success-wins over
header `mcp-session-id`, header `x-session-id`, the body regex, and only then
the local fallback. -/
def specSessionChoice (resp : InitResponse) (now : Nat) (rand : String) : String :=
  match firstTruthy [getHeader resp.headers "mcp-session-id",
                     getHeader resp.headers "x-session-id",
                     bodySessionMatch resp.data] with
  | some s => s
  | none => fallbackSessionId now rand

/-! Helper lemmas shared by several claims. -/

theorem fallbackSessionId_ne_empty (now : Nat) (rand : String) :
    ¬ fallbackSessionId now rand = "" := by
  intro h
  have hlen := congrArg String.length h
  have h8 : ("session_" : String).length = 8 := rfl
  simp [fallbackSessionId, String.length_append] at hlen
  omega

theorem fallback_truthy (now : Nat) (rand : String) :
    jsTruthy (some (fallbackSessionId now rand)) = true := by
  simp [jsTruthy]
  exact fallbackSessionId_ne_empty now rand

theorem initializeMCPClient_fast (st : WrapperState) (o : Except AxiosError InitResponse)
    (n : Nat) (r : String) (h1 : st.mcpInitialized = true)
    (h2 : jsTruthy st.sessionId = true) :
    initializeMCPClient st o n r = { ok := true, state := st, requests := [] } := by
  unfold initializeMCPClient
  simp [h1, h2]

theorem initializeMCPClient_ok_ready (st : WrapperState)
    (o : Except AxiosError InitResponse) (n : Nat) (r : String)
    (h : (initializeMCPClient st o n r).ok = true) :
    (initializeMCPClient st o n r).state.mcpInitialized = true ∧
    jsTruthy (initializeMCPClient st o n r).state.sessionId = true := by
  unfold initializeMCPClient at *
  by_cases hf : (st.mcpInitialized && jsTruthy st.sessionId) = true
  · simp only [hf, if_pos] at h ⊢
    simpa using hf
  · simp only [Bool.not_eq_true] at hf
    simp only [hf] at h ⊢
    cases o with
    | error e => simp at h
    | ok resp =>
      by_cases hs : jsTruthy (extractSessionId resp) = true
      · simp [hs]
      · simp only [Bool.not_eq_true] at hs
        simp [hs, fallback_truthy]

theorem initializeMCPClient_not_ok (st : WrapperState)
    (o : Except AxiosError InitResponse) (n : Nat) (r : String)
    (h : ¬ (initializeMCPClient st o n r).ok = true) :
    initializeMCPClient st o n r
      = { ok := false, state := st, requests := [initRequest] } := by
  unfold initializeMCPClient at *
  by_cases hf : (st.mcpInitialized && jsTruthy st.sessionId) = true
  · simp [hf] at h
  · simp only [Bool.not_eq_true] at hf
    simp only [hf] at h ⊢
    cases o with
    | error e => simp
    | ok resp => simp at h

theorem initializeMCPClient_req_len (st : WrapperState)
    (o : Except AxiosError InitResponse) (n : Nat) (r : String) :
    (initializeMCPClient st o n r).requests.length ≤ 1 := by
  unfold initializeMCPClient
  by_cases hf : (st.mcpInitialized && jsTruthy st.sessionId) = true
  · simp [hf]
  · simp only [Bool.not_eq_true] at hf
    cases o <;> simp [hf]

theorem sendCall_requests (st : WrapperState) (prev : List RpcRequest) (m : String)
    (p : Json) (env : CallEnv) :
    (sendCall st prev m p env).requests
      = prev ++ [mkCallRequest env.callNow m p st.sessionId] := by
  unfold sendCall
  cases h : env.callOutcome <;> simp

theorem sendCall_error_state (st : WrapperState) (prev : List RpcRequest) (m : String)
    (p : Json) (env : CallEnv) (e : AxiosError) (h : env.callOutcome = Except.error e) :
    (sendCall st prev m p env).state = initialState := by
  unfold sendCall
  rw [h]
  rfl

theorem runRoute_requests (st : WrapperState) (m : String) (p : Json) (env : CallEnv) :
    (runRoute st m p env).requests = (callMCPServer st m p env).requests := by
  unfold runRoute
  cases h : (callMCPServer st m p env).result <;> simp [h]

theorem callMCPServer_ready (st : WrapperState) (m : String) (p : Json) (env : CallEnv)
    (h1 : st.mcpInitialized = true) (h2 : jsTruthy st.sessionId = true) :
    callMCPServer st m p env = sendCall st [] m p env := by
  unfold callMCPServer
  simp [h1, h2]

/-! ## C1 — handshake failure and the fallback identifier -/

/-- Concrete failing handshake outcome: axios rejects with a network error. -/
def failedHandshake : Except AxiosError InitResponse :=
  Except.error { status := none, message := "Network Error" }

/-- C1 counterexample: when the handshake POST throws, `initializeMCPClient`
returns `false` — not success — and the cached session identifier stays
`null`; no fallback identifier is generated on this path (the catch at
`index.js` lines 80-88 returns `false` without reaching the fallback at
lines 63-67). -/
theorem C1_counterexample :
    (initializeMCPClient initialState failedHandshake 1700000000000 "k3j9qx7z2m4p").ok
      = false ∧
    (initializeMCPClient initialState failedHandshake 1700000000000 "k3j9qx7z2m4p").state.sessionId
      = none :=
  ⟨rfl, rfl⟩

/-- C1 amended: if the handshake request throws, `initializeMCPClient` returns
failure (`false`) and leaves both globals unchanged; the fallback identifier
`session_<now>_<rand>` is cached only when the handshake succeeds but yields
no session identifier from the headers or the body. -/
theorem C1_amended_correct (st : WrapperState) (e : AxiosError) (now : Nat) (rand : String)
    (hf : ¬ (st.mcpInitialized && jsTruthy st.sessionId) = true) :
    initializeMCPClient st (Except.error e) now rand
      = { ok := false, state := st, requests := [initRequest] } ∧
    ∀ resp, jsTruthy (extractSessionId resp) = false →
      (initializeMCPClient st (Except.ok resp) now rand).state.sessionId
        = some (fallbackSessionId now rand) := by
  simp only [Bool.not_eq_true] at hf
  constructor
  · unfold initializeMCPClient
    simp [hf]
  · intro resp hres
    unfold initializeMCPClient
    simp [hf, hres]

/-- C1 amended, witness: concrete failing and identifier-free handshakes. -/
theorem C1_amended_witness :
    (initializeMCPClient initialState
        (Except.error { status := some 503, message := "boom" }) 7 "ab"
      = { ok := false, state := initialState, requests := [initRequest] }) ∧
    (initializeMCPClient initialState
        (Except.ok { status := 200, headers := [], data := BodyData.json Json.null })
        7 "ab").state.sessionId = some (fallbackSessionId 7 "ab") := by
  refine ⟨(C1_amended_correct initialState { status := some 503, message := "boom" } 7 "ab"
      (by decide)).1, ?_⟩
  exact (C1_amended_correct initialState { status := some 503, message := "boom" } 7 "ab"
      (by decide)).2
    { status := 200, headers := [], data := BodyData.json Json.null } rfl

/-! ## C2 — distinctness of envelope ids -/

/-- Concrete ready session state (both globals truthy). -/
def readyState : WrapperState := { mcpInitialized := true, sessionId := some "abc123" }

/-- Concrete environment: upstream call succeeds, `Date.now()` reads 42. -/
def okCallEnv : CallEnv :=
  { initOutcome := failedHandshake, initNow := 0, initRand := "r", callNow := 42,
    callOutcome := Except.ok { status := 200, data := BodyData.str "ok" } }

/-- C2 counterexample: two consecutive upstream requests of one process
lifetime — a `tools/list` call and then a `tools/call` from the state the
first call left behind — are distinct envelopes (their methods differ) yet
both carry id 42, because both `Date.now()` readings fall in the same
millisecond; moreover every handshake envelope carries the constant id 1, so
two handshakes collide as well. The ids are therefore not collision-free. -/
theorem C2_counterexample :
    ((callMCPServer readyState "tools/list" (Json.obj []) okCallEnv).requests.map
        RpcRequest.id = [42]) ∧
    ((callMCPServer (callMCPServer readyState "tools/list" (Json.obj []) okCallEnv).state
        "tools/call" (Json.obj [("name", Json.str "create_task"), ("arguments", Json.obj [])])
        okCallEnv).requests.map RpcRequest.id = [42]) ∧
    ((callMCPServer readyState "tools/list" (Json.obj []) okCallEnv).requests.map
        RpcRequest.method = ["tools/list"]) ∧
    ((callMCPServer (callMCPServer readyState "tools/list" (Json.obj []) okCallEnv).state
        "tools/call" (Json.obj [("name", Json.str "create_task"), ("arguments", Json.obj [])])
        okCallEnv).requests.map RpcRequest.method = ["tools/call"]) ∧
    initRequest.id = 1 :=
  ⟨rfl, rfl, rfl, rfl, rfl⟩

/-- C2 amended: envelope ids are timestamp-based, not collision-free: every
non-handshake envelope carries `id = Date.now()` at send time and every
handshake envelope carries the constant id 1, so two envelopes have distinct
ids whenever their `Date.now()` readings differ, while envelopes sent in the
same millisecond (and any two handshake envelopes) share an id. -/
theorem C2_amended_correct (n1 n2 : Nat) (m1 m2 : String) (p1 p2 : Json)
    (s1 s2 : Option String) (st : WrapperState) (prev : List RpcRequest)
    (m : String) (p : Json) (env : CallEnv) (hne : ¬ n1 = n2) :
    ¬ (mkCallRequest n1 m1 p1 s1).id = (mkCallRequest n2 m2 p2 s2).id ∧
    (sendCall st prev m p env).requests
      = prev ++ [mkCallRequest env.callNow m p st.sessionId] ∧
    initRequest.id = 1 :=
  ⟨hne, sendCall_requests st prev m p env, rfl⟩

/-- C2 amended, witness: distinct millisecond readings 42 and 43. -/
theorem C2_amended_witness :
    ¬ (mkCallRequest 42 "tools/list" (Json.obj []) none).id
        = (mkCallRequest 43 "tools/call" (Json.obj []) none).id ∧
    (sendCall readyState [] "tools/list" (Json.obj []) okCallEnv).requests
      = [] ++ [mkCallRequest okCallEnv.callNow "tools/list" (Json.obj [])
                 readyState.sessionId] ∧
    initRequest.id = 1 :=
  C2_amended_correct 42 43 "tools/list" "tools/call" (Json.obj []) (Json.obj [])
    none none readyState [] "tools/list" (Json.obj []) okCallEnv (by decide)

/-! ## C4 — idempotent fast path of session acquisition -/

/-- C4: when both globals are truthy, `initializeMCPClient` returns `true`
immediately, leaves the state unchanged and sends no request; consequently,
whenever a first invocation succeeds, a second consecutive invocation is a
network-free no-op, so two consecutive invocations without an intervening
failure send at most one handshake. -/
theorem C4_correct (st : WrapperState) (o o2 : Except AxiosError InitResponse)
    (n n2 : Nat) (r r2 : String) :
    (st.mcpInitialized = true → jsTruthy st.sessionId = true →
       initializeMCPClient st o n r = { ok := true, state := st, requests := [] }) ∧
    ((initializeMCPClient st o n r).ok = true →
       initializeMCPClient (initializeMCPClient st o n r).state o2 n2 r2
         = { ok := true, state := (initializeMCPClient st o n r).state, requests := [] } ∧
       (initializeMCPClient st o n r).requests.length ≤ 1) := by
  refine ⟨fun h1 h2 => initializeMCPClient_fast st o n r h1 h2, fun hok => ⟨?_, ?_⟩⟩
  · have hr := initializeMCPClient_ok_ready st o n r hok
    exact initializeMCPClient_fast _ o2 n2 r2 hr.1 hr.2
  · exact initializeMCPClient_req_len st o n r

/-- C4 witness: a ready state and a success handshake outcome. -/
theorem C4_witness :
    initializeMCPClient readyState failedHandshake 5 "x"
      = { ok := true, state := readyState, requests := [] } ∧
    initializeMCPClient (initializeMCPClient readyState failedHandshake 5 "x").state
        failedHandshake 6 "y"
      = { ok := true, state := (initializeMCPClient readyState failedHandshake 5 "x").state,
          requests := [] } := by
  refine ⟨(C4_correct readyState failedHandshake failedHandshake 5 6 "x" "y").1 rfl rfl,
    ((C4_correct readyState failedHandshake failedHandshake 5 6 "x" "y").2 rfl).1⟩

/-! ## C7 — first-success-wins order of session-identifier extraction -/

/-- Core of the extraction logic over the header disjunction and the body
regex candidate: keep the truthy header value, otherwise a body match if any,
otherwise whatever falsy value the headers left. -/
def chainCore (sid bm : Option String) : Option String :=
  if !(jsTruthy sid) then
    match bm with
    | some m => some m
    | none => sid
  else sid

theorem extract_eq_chain (resp : InitResponse) :
    extractSessionId resp
      = chainCore (jsOr (getHeader resp.headers "mcp-session-id")
                        (getHeader resp.headers "x-session-id"))
                  (bodySessionMatch resp.data) := by
  unfold extractSessionId chainCore bodySessionMatch
  cases hd : resp.data with
  | str s => cases hm : sessionIdMatch s <;> simp
  | json j => simp

theorem chain_eq (h1 h2 bm : Option String) (fb : String) :
    (if jsTruthy (chainCore (jsOr h1 h2) bm) then chainCore (jsOr h1 h2) bm
     else some fb)
      = some (match firstTruthy [h1, h2, bm] with | some s => s | none => fb) := by
  unfold chainCore jsOr firstTruthy
  cases h1 with
  | none =>
    cases h2 with
    | none =>
      cases bm with
      | none => simp [jsTruthy, firstTruthy]
      | some m =>
        by_cases hm : m = "" <;> simp [jsTruthy, firstTruthy, hm]
    | some b =>
      by_cases hb : b = ""
      · cases bm with
        | none => simp [jsTruthy, firstTruthy, hb]
        | some m =>
          by_cases hm : m = "" <;> simp [jsTruthy, firstTruthy, hb, hm]
      · simp [jsTruthy, firstTruthy, hb]
  | some a =>
    by_cases ha : a = ""
    · cases h2 with
      | none =>
        cases bm with
        | none => simp [jsTruthy, firstTruthy, ha]
        | some m =>
          by_cases hm : m = "" <;> simp [jsTruthy, firstTruthy, ha, hm]
      | some b =>
        by_cases hb : b = ""
        · cases bm with
          | none => simp [jsTruthy, firstTruthy, ha, hb]
          | some m =>
            by_cases hm : m = "" <;> simp [jsTruthy, firstTruthy, ha, hb, hm]
        · simp [jsTruthy, firstTruthy, ha, hb]
    · simp [jsTruthy, firstTruthy, ha]

/-- C7: on a successful handshake the cached identifier follows the
first-success-wins order — the header `mcp-session-id`, then the header
`x-session-id`, then (when the body is a string) the body regex
`sessionId[=:]([a-f0-9-]+)` — and only when all of those yield nothing usable
(a falsy, that is absent or empty, value at every stage) is the local
fallback synthesized. `specSessionChoice` is the selector written from the
words of the spec; the theorem equates it with the identifier the code caches. -/
theorem C7_correct (st : WrapperState) (resp : InitResponse) (now : Nat) (rand : String)
    (hf : ¬ (st.mcpInitialized && jsTruthy st.sessionId) = true) :
    (initializeMCPClient st (Except.ok resp) now rand).state.sessionId
      = some (specSessionChoice resp now rand) := by
  simp only [Bool.not_eq_true] at hf
  unfold initializeMCPClient
  simp only [hf, Bool.false_eq_true, if_false]
  unfold specSessionChoice
  rw [extract_eq_chain resp]
  exact chain_eq _ _ _ _

/-- C7 witness: an uninitialized state and a handshake response carrying no
header but a body-embedded session token. -/
theorem C7_witness :
    (initializeMCPClient initialState
        (Except.ok { status := 200, headers := [("content-type", "text/event-stream")],
                     data := BodyData.str "event: message sessionId=beef-01" })
        9 "zz").state.sessionId
      = some (specSessionChoice
          { status := 200, headers := [("content-type", "text/event-stream")],
            data := BodyData.str "event: message sessionId=beef-01" } 9 "zz") :=
  C7_correct initialState
    { status := 200, headers := [("content-type", "text/event-stream")],
      data := BodyData.str "event: message sessionId=beef-01" } 9 "zz" (by decide)

/-! ## C3 — failure surfacing and invalidate-and-retry -/

theorem initializeMCPClient_requests_eq (st : WrapperState)
    (o : Except AxiosError InitResponse) (n : Nat) (r : String)
    (hf : ¬ (st.mcpInitialized && jsTruthy st.sessionId) = true) :
    (initializeMCPClient st o n r).requests = [initRequest] := by
  simp only [Bool.not_eq_true] at hf
  unfold initializeMCPClient
  cases o <;> simp [hf]

theorem callMCPServer_uninit_head (st : WrapperState) (m : String) (p : Json)
    (env : CallEnv) (hf : (st.mcpInitialized && jsTruthy st.sessionId) = false) :
    (callMCPServer st m p env).requests.head? = some initRequest := by
  have hcond : (!st.mcpInitialized || !(jsTruthy st.sessionId)) = true := by
    rw [← Bool.not_and, hf]
    rfl
  have hreq := initializeMCPClient_requests_eq st env.initOutcome env.initNow env.initRand
    (by simp [hf])
  unfold callMCPServer
  simp only [hcond, if_true]
  by_cases hok : (initializeMCPClient st env.initOutcome env.initNow env.initRand).ok = true
  · simp [hok, sendCall_requests, hreq]
  · simp only [Bool.not_eq_true] at hok
    simp [hok, hreq]

/-- Concrete environment: the upstream call fails with HTTP 503. -/
def errCallEnv : CallEnv :=
  { initOutcome := failedHandshake, initNow := 0, initRand := "r", callNow := 42,
    callOutcome := Except.error (httpStatusError 503) }

/-- C3: when the upstream POST throws, `callMCPServer` resets both globals
(`mcpInitialized = false`, `sessionId = null`) and rethrows the error; the
HTTP boundary turns this into status 500 with a body whose error field is the
(non-empty) thrown message — in particular the axios message of an HTTP 503
failure is non-empty — and the next invocation of `callMCPServer` from the
reset state begins with a fresh `initialize` handshake envelope instead of
reusing the stale identifier. -/
theorem C3_correct (st : WrapperState) (m m2 : String) (p p2 : Json) (env env2 : CallEnv)
    (e : AxiosError) (h1 : st.mcpInitialized = true) (h2 : jsTruthy st.sessionId = true)
    (hc : env.callOutcome = Except.error e) (hm : ¬ e.message = "") :
    (callMCPServer st m p env).state = initialState ∧
    (callMCPServer st m p env).result = Except.error e.message ∧
    (runRoute st m p env).reply.status = 500 ∧
    (runRoute st m p env).reply.body = ReplyBody.errObj e.message ∧
    ¬ e.message = "" ∧
    ¬ (httpStatusError 503).message = "" ∧
    (callMCPServer (callMCPServer st m p env).state m2 p2 env2).requests.head?
      = some initRequest := by
  have hcall : callMCPServer st m p env = sendCall st [] m p env :=
    callMCPServer_ready st m p env h1 h2
  have hsend : sendCall st [] m p env
      = { result := Except.error e.message, state := initialState,
          requests := [mkCallRequest env.callNow m p st.sessionId] } := by
    unfold sendCall
    rw [hc]
    simp [initialState]
  have hrr : runRoute st m p env
      = { reply := { status := 500, body := ReplyBody.errObj e.message },
          state := initialState,
          requests := [mkCallRequest env.callNow m p st.sessionId] } := by
    unfold runRoute
    rw [hcall, hsend]
  refine ⟨by rw [hcall, hsend], by rw [hcall, hsend], by rw [hrr], by rw [hrr], hm,
    by decide, ?_⟩
  rw [hcall, hsend]
  exact callMCPServer_uninit_head initialState m2 p2 env2 rfl

/-- C3 witness: a ready state and a concrete HTTP 503 failure. -/
theorem C3_witness :
    (callMCPServer readyState "tools/list" (Json.obj []) errCallEnv).state = initialState ∧
    (runRoute readyState "tools/list" (Json.obj []) errCallEnv).reply.status = 500 ∧
    (callMCPServer (callMCPServer readyState "tools/list" (Json.obj []) errCallEnv).state
        "tools/list" (Json.obj []) okCallEnv).requests.head? = some initRequest := by
  have h := C3_correct readyState "tools/list" "tools/list" (Json.obj []) (Json.obj [])
    errCallEnv okCallEnv (httpStatusError 503) rfl rfl rfl (by decide)
  exact ⟨h.1, h.2.2.1, h.2.2.2.2.2.2⟩

/-! ## C5 — pass-through fidelity and generic dispatch -/

/-- C5: while a session is ready, `POST /call/:toolName` sends exactly one
upstream envelope — method `tools/call`, `params.name` the path parameter,
`params.arguments` the request body unmodified — for every tool name (no
allowlist), and `POST /task` sends the same envelope with name `create_task`. -/
theorem C5_correct (t : String) (B : Json) (st : WrapperState) (env : CallEnv)
    (h1 : st.mcpInitialized = true) (h2 : jsTruthy st.sessionId = true) :
    (callToolRoute st t B env).requests
      = [mkCallRequest env.callNow "tools/call"
           (Json.obj [("name", Json.str t), ("arguments", B)]) st.sessionId] ∧
    jsonLookup [("name", Json.str t), ("arguments", B)] "name" = some (Json.str t) ∧
    jsonLookup [("name", Json.str t), ("arguments", B)] "arguments" = some B ∧
    (createTaskRoute st B env).requests
      = [mkCallRequest env.callNow "tools/call"
           (Json.obj [("name", Json.str "create_task"), ("arguments", B)]) st.sessionId] := by
  refine ⟨?_, rfl, rfl, ?_⟩
  · unfold callToolRoute
    rw [runRoute_requests, callMCPServer_ready st _ _ env h1 h2, sendCall_requests]
    rfl
  · unfold createTaskRoute
    rw [runRoute_requests, callMCPServer_ready st _ _ env h1 h2, sendCall_requests]
    rfl

/-- C5 witness: an unknown tool name `foo_bar` with body `x = 1`. -/
theorem C5_witness :
    (callToolRoute readyState "foo_bar" (Json.obj [("x", Json.num 1)]) okCallEnv).requests
      = [mkCallRequest okCallEnv.callNow "tools/call"
           (Json.obj [("name", Json.str "foo_bar"),
                      ("arguments", Json.obj [("x", Json.num 1)])]) readyState.sessionId] ∧
    (createTaskRoute readyState (Json.obj [("x", Json.num 1)]) okCallEnv).requests
      = [mkCallRequest okCallEnv.callNow "tools/call"
           (Json.obj [("name", Json.str "create_task"),
                      ("arguments", Json.obj [("x", Json.num 1)])]) readyState.sessionId] := by
  have h := C5_correct "foo_bar" (Json.obj [("x", Json.num 1)]) readyState okCallEnv rfl rfl
  exact ⟨h.1, h.2.2.2⟩

/-! ## C6 — tolerance of event-stream-framed bodies -/

/-- C6: when the upstream answers 2xx with a string body containing the
literal marker `event: message`, `callMCPServer` does not throw: it returns
that body to the HTTP caller byte-for-byte unaltered, and the route replies
200 with the same payload. -/
theorem C6_correct (st : WrapperState) (m : String) (p : Json) (env : CallEnv)
    (resp : CallResponse) (s : String) (h1 : st.mcpInitialized = true)
    (h2 : jsTruthy st.sessionId = true) (hc : env.callOutcome = Except.ok resp)
    (hd : resp.data = BodyData.str s) (hmk : hasEventMarker s = true) :
    (callMCPServer st m p env).result = Except.ok (BodyData.str s) ∧
    (runRoute st m p env).reply
      = { status := 200, body := ReplyBody.payload (BodyData.str s) } := by
  have hcall : callMCPServer st m p env = sendCall st [] m p env :=
    callMCPServer_ready st m p env h1 h2
  have hsend : sendCall st [] m p env
      = { result := Except.ok (BodyData.str s), state := st,
          requests := [mkCallRequest env.callNow m p st.sessionId] } := by
    unfold sendCall
    rw [hc]
    simp [hd]
  refine ⟨by rw [hcall, hsend], ?_⟩
  unfold runRoute
  rw [hcall, hsend]

/-- C6 witness: a concrete event-stream-framed body. -/
theorem C6_witness :
    (callMCPServer readyState "tools/list" (Json.obj [])
        { okCallEnv with
          callOutcome := Except.ok
            { status := 200, data := BodyData.str "event: message\ndata: hello" } }).result
      = Except.ok (BodyData.str "event: message\ndata: hello") :=
  (C6_correct readyState "tools/list" (Json.obj [])
    { okCallEnv with
      callOutcome := Except.ok
        { status := 200, data := BodyData.str "event: message\ndata: hello" } }
    { status := 200, data := BodyData.str "event: message\ndata: hello" }
    "event: message\ndata: hello" rfl rfl rfl rfl (by decide)).1

/-! ## C10 — frame property of a successful call -/

/-- C10: when the session is ready and the upstream POST succeeds,
`callMCPServer` leaves both globals exactly as they were and returns the
response data — only the failure branch mutates session state. -/
theorem C10_correct (st : WrapperState) (m : String) (p : Json) (env : CallEnv)
    (resp : CallResponse) (h1 : st.mcpInitialized = true)
    (h2 : jsTruthy st.sessionId = true) (hc : env.callOutcome = Except.ok resp) :
    (callMCPServer st m p env).state = st ∧
    (callMCPServer st m p env).result = Except.ok resp.data := by
  have hcall : callMCPServer st m p env = sendCall st [] m p env :=
    callMCPServer_ready st m p env h1 h2
  have hsend : sendCall st [] m p env
      = { result := Except.ok resp.data, state := st,
          requests := [mkCallRequest env.callNow m p st.sessionId] } := by
    unfold sendCall
    rw [hc]
    simp
  exact ⟨by rw [hcall, hsend], by rw [hcall, hsend]⟩

/-- C10 witness: ready state, successful call. -/
theorem C10_witness :
    (callMCPServer readyState "tools/list" (Json.obj []) okCallEnv).state = readyState :=
  (C10_correct readyState "tools/list" (Json.obj []) okCallEnv
    { status := 200, data := BodyData.str "ok" } rfl rfl rfl).1

/-! ## C8 — session-state invariant -/

theorem stateInv_init_preserved (st : WrapperState) (o : Except AxiosError InitResponse)
    (n : Nat) (r : String) (h : stateInvB st = true) :
    stateInvB (initializeMCPClient st o n r).state = true := by
  by_cases hok : (initializeMCPClient st o n r).ok = true
  · have hr := initializeMCPClient_ok_ready st o n r hok
    simp [stateInvB, hr.1, hr.2]
  · rw [initializeMCPClient_not_ok st o n r hok]
    exact h

theorem stateInv_call_preserved (st : WrapperState) (m : String) (p : Json)
    (env : CallEnv) (h : stateInvB st = true) :
    stateInvB (callMCPServer st m p env).state = true := by
  have hsend : ∀ st2 prev, stateInvB st2 = true →
      stateInvB (sendCall st2 prev m p env).state = true := by
    intro st2 prev h2
    unfold sendCall
    cases hc : env.callOutcome with
    | ok resp => simpa using h2
    | error e => simp [stateInvB, jsTruthy]
  unfold callMCPServer
  by_cases hcond : (!st.mcpInitialized || !(jsTruthy st.sessionId)) = true
  · simp only [hcond, if_true]
    by_cases hok : (initializeMCPClient st env.initOutcome env.initNow env.initRand).ok
        = true
    · simp only [hok, if_true]
      exact hsend _ _ (stateInv_init_preserved st _ _ _ h)
    · simp only [Bool.not_eq_true] at hok
      simp only [hok, Bool.false_eq_true, if_false]
      exact stateInv_init_preserved st _ _ _ h
  · simp only [Bool.not_eq_true] at hcond
    simp only [hcond, Bool.false_eq_true, if_false]
    exact hsend _ _ h

/-- C8: the invariant "whenever `mcpInitialized` is true, `sessionId` is a
non-null, non-empty string" holds at process start and is preserved by every
acquisition and every bridge call; the two globals are set together on
acquisition success (the successful acquisition always leaves `mcpInitialized`
true with a truthy `sessionId`) and cleared together to the uninitialized
state by the failure branch of a call. -/
theorem C8_correct :
    stateInvB initialState = true ∧
    (∀ st o n r, stateInvB st = true →
       stateInvB (initializeMCPClient st o n r).state = true) ∧
    (∀ st o n r, (initializeMCPClient st o n r).ok = true →
       (initializeMCPClient st o n r).state.mcpInitialized = true ∧
       jsTruthy (initializeMCPClient st o n r).state.sessionId = true) ∧
    (∀ st m p env, stateInvB st = true →
       stateInvB (callMCPServer st m p env).state = true) ∧
    (∀ st prev m p env e, env.callOutcome = Except.error e →
       (sendCall st prev m p env).state = initialState) :=
  ⟨rfl, stateInv_init_preserved, initializeMCPClient_ok_ready,
   stateInv_call_preserved, sendCall_error_state⟩

/-- C8 witness: the invariant after a concrete failed acquisition, after a
concrete call, and the cleared state after a concrete failed call. -/
theorem C8_witness :
    stateInvB (initializeMCPClient initialState failedHandshake 3 "q").state = true ∧
    stateInvB (callMCPServer initialState "tools/list" (Json.obj []) okCallEnv).state
      = true ∧
    (sendCall readyState [] "tools/list" (Json.obj []) errCallEnv).state = initialState :=
  ⟨C8_correct.2.1 initialState failedHandshake 3 "q" rfl,
   C8_correct.2.2.2.1 initialState "tools/list" (Json.obj []) okCallEnv rfl,
   C8_correct.2.2.2.2 readyState [] "tools/list" (Json.obj []) errCallEnv
     (httpStatusError 503) rfl⟩

/-! ## C9 — body `taskId` overrides the path parameter -/

theorem jsonLookup_objInsert_self (fields : List (String × Json)) (k : String) (v : Json) :
    jsonLookup (objInsert fields k v) k = some v := by
  induction fields with
  | nil => simp [objInsert, jsonLookup, List.find?]
  | cons q rest ih =>
    by_cases h : q.1 = k
    · simp [objInsert, jsonLookup, h, List.find?]
    · simp only [objInsert, beq_iff_eq, h, if_false]
      simp only [jsonLookup, List.find?] at ih ⊢
      have hq : (q.1 == k) = false := by
        simp [h]
      rw [hq]
      exact ih

theorem jsonLookup_objInsert_other (fields : List (String × Json)) (k k2 : String)
    (v : Json) (hne : ¬ k2 = k) :
    jsonLookup (objInsert fields k v) k2 = jsonLookup fields k2 := by
  have hne' : (k == k2) = false := by
    simp
    intro hkk
    exact hne hkk.symm
  induction fields with
  | nil => simp [objInsert, jsonLookup, List.find?, hne']
  | cons q rest ih =>
    by_cases h : q.1 = k
    · simp only [objInsert, beq_iff_eq, h, if_true]
      simp only [jsonLookup, List.find?, hne', h]
    · simp only [objInsert, beq_iff_eq, h, if_false]
      by_cases h2 : q.1 = k2
      · simp only [jsonLookup, List.find?]
        have hq : (q.1 == k2) = true := by
          simp [h2]
        rw [hq]
      · simp only [jsonLookup, List.find?] at ih ⊢
        have hq : (q.1 == k2) = false := by
          simp [h2]
        rw [hq]
        exact ih

theorem jsonLookup_spreadInto (src : List (String × Json)) (base : List (String × Json))
    (k : String) :
    jsonLookup (spreadInto base src) k
      = match jsonLookupLast src k with
        | some v => some v
        | none => jsonLookup base k := by
  induction src generalizing base with
  | nil => rfl
  | cons q rest ih =>
    show jsonLookup (spreadInto (objInsert base q.1 q.2) rest) k = _
    rw [ih]
    cases hr : jsonLookupLast rest k with
    | some v => simp [jsonLookupLast, hr]
    | none =>
      simp only [jsonLookupLast, hr]
      by_cases hq : q.1 = k
      · subst hq
        simp [jsonLookup_objInsert_self]
      · have hne : ¬ k = q.1 := fun hh => hq hh.symm
        have hb : (q.1 == k) = false := by
          simp [hq]
        rw [jsonLookup_objInsert_other base q.1 k q.2 hne, hb]
        simp

/-- C9: `PUT /task/:taskId` builds its upstream arguments object as the spread
of the request body over the singleton object carrying the path parameter, so
whenever the body carries its own `taskId` binding, the body value is the
one the envelope carries; only a body without `taskId` lets the path
parameter through. -/
theorem C9_correct (st : WrapperState) (env : CallEnv) (tid : String)
    (body : List (String × Json)) (v : Json)
    (h1 : st.mcpInitialized = true) (h2 : jsTruthy st.sessionId = true) :
    (updateTaskRoute st tid body env).requests
      = [mkCallRequest env.callNow "tools/call"
           (Json.obj [("name", Json.str "update_task"),
                      ("arguments", updateTaskArgs tid body)]) st.sessionId] ∧
    (jsonLookupLast body "taskId" = some v →
       jsonLookup (spreadInto [("taskId", Json.str tid)] body) "taskId" = some v) ∧
    (jsonLookupLast body "taskId" = none →
       jsonLookup (spreadInto [("taskId", Json.str tid)] body) "taskId"
         = some (Json.str tid)) := by
  refine ⟨?_, ?_, ?_⟩
  · unfold updateTaskRoute
    rw [runRoute_requests, callMCPServer_ready st _ _ env h1 h2, sendCall_requests]
    rfl
  · intro h
    rw [jsonLookup_spreadInto, h]
  · intro h
    rw [jsonLookup_spreadInto, h]
    rfl

/-- C9 witness: path parameter A, body carrying its own `taskId` B. -/
theorem C9_witness :
    jsonLookup (spreadInto [("taskId", Json.str "A")] [("taskId", Json.str "B")]) "taskId"
      = some (Json.str "B") ∧
    (updateTaskRoute readyState "A" [("taskId", Json.str "B")] okCallEnv).requests
      = [mkCallRequest okCallEnv.callNow "tools/call"
           (Json.obj [("name", Json.str "update_task"),
                      ("arguments", updateTaskArgs "A" [("taskId", Json.str "B")])])
           readyState.sessionId] := by
  have h := C9_correct readyState okCallEnv "A" [("taskId", Json.str "B")]
    (Json.str "B") rfl rfl
  exact ⟨h.2.1 rfl, h.1⟩

end Wrapper
